import Mathlib

/-!
Shallow embedding of `src/sultan/api.py` (the `sultan` command-line builder).

The Python module builds shell command lines from chained tokens (plain
commands, pipes, `&&`, `||`, redirects), wraps them according to an execution
context (cwd, source file, sudo, ssh), and executes them through a shell.
Ambient facts (`os.path.exists`, `getpass.getuser()`, the shell itself) are
passed in as explicit parameters.
-/

namespace SultanModel

/-- Environments passed to the shell (`env=` of `subprocess.Popen`);
`none` stands for inheriting the invoking process environment. -/
abbrev Env := List (String × String)

/-- The single-quote character, used by the sudo and ssh wrappers. -/
def sq : String := "\x27"

/-- Drop leading whitespace characters from a character list. -/
def dropWs : List Char → List Char
  | [] => []
  | c :: cs => if c.isWhitespace then dropWs cs else c :: cs

/-- Python's `str.strip()`: remove whitespace from both ends.  (Stated on
the character list so that it reduces inside the kernel, unlike
`String.trim`, whose helper recursions are well-founded.) -/
def pyStrip (s : String) : String :=
  ⟨(dropWs (dropWs s.data.reverse).reverse)⟩

/-- Python's `sep.join(parts)`. -/
def pyJoin (sep : String) : List String → String
  | [] => ""
  | [x] => x
  | x :: y :: rest => x ++ sep ++ pyJoin sep (y :: rest)

/-- Whether the first list is a prefix of the second. -/
def listIsPref : List Char → List Char → Bool
  | [], _ => true
  | _ :: _, [] => false
  | a :: as, b :: bs => a == b && listIsPref as bs

/-- `str.startswith` on the underlying characters. -/
def pyStartsWith (s p : String) : Bool := listIsPref p.data s.data

/-- `str.endswith` on the underlying characters. -/
def pyEndsWith (s p : String) : Bool := listIsPref p.data.reverse s.data.reverse

/-- Python truthiness of `str(...)` values stored in the context dict:
`None` and the empty string are falsy. -/
def optEmpty : Option String → Bool
  | none => true
  | some s => s == ""

/-- Rendering of an optional string through a Python f-string:
`None` renders as the text `None`. -/
def pyStr : Option String → String
  | none => "None"
  | some s => s

/-- One entry of the command buffer.  Mirrors the class hierarchy
`Command` / `Pipe` / `And` / `Or` / `Redirect` of `api.py`: `Pipe`, `And`
and `Or` only carry their literal operator text, and a `Redirect` stores
its fully rendered `<descriptor> <path>` text in its `command` field. -/
inductive Token where
  | plain (command : String) (args : List String) (kwargs : List (String × String))
  | pipe
  | andOp
  | orOp
  | redir (command : String)
deriving Repr, DecidableEq

namespace Token

/-- Membership in `SPECIAL_CASES = (Pipe, And, Redirect, Or)` used by
`Sultan.__str__` to pick separators. -/
def isSpecial : Token → Bool
  | plain _ _ _ => false
  | pipe => true
  | andOp => true
  | orOp => true
  | redir _ => true

/-- Option-flag marker of `Command.__str__`: one-character keys get `-`,
longer keys get `--`. -/
def flagMark (k : String) : String := if k.length == 1 then "-" else "--"

/-- `Command.__str__` / `Pipe.__str__` / `And.__str__` / `Or.__str__` /
`Redirect.__str__`: render one token to its string fragment. -/
def render : Token → String
  | plain c args kwargs =>
      let kwargsStr :=
        pyStrip (pyJoin (" ") (kwargs.map (fun p => flagMark p.1 ++ p.1 ++ "=" ++ p.2)))
      let argsStr := pyStrip (pyJoin (" ") args)
      let out := c
      let out := if kwargsStr ≠ "" then out ++ " " ++ kwargsStr else out
      if argsStr ≠ "" then out ++ " " ++ argsStr else out
  | pipe => "|"
  | andOp => "&&"
  | orOp => "||"
  | redir c => c

end Token

/-- The context dict built by `Sultan.load`.  A field holding `none`
models a key whose value is Python `None` (or, for a context built
directly as `{}`, an absent key). -/
structure Context where
  cwd : Option String := none
  sudoFlag : Bool := false
  hostname : Option String := none
  ssh_config : String := ""
  env : Option Env := none
  src : Option String := none
  user : Option String := none
deriving Repr, DecidableEq

/-- The `{}` returned by `Sultan.current_context` on an empty stack. -/
def emptyContext : Context := {}

/-- The state of a `Sultan` instance: the command buffer `self.commands`
and the context stack `self._context` (end of list = top of stack,
matching Python's `append`/`pop`/`[-1]`). -/
structure SultanState where
  commands : List Token
  contexts : List Context
deriving Repr, DecidableEq

namespace Sultan

/-- `Sultan.__init__(context)`: empty buffer; the stack holds the given
context when one is provided. -/
def init (c? : Option Context) : SultanState :=
  { commands := [], contexts := match c? with | some c => [c] | none => [] }

/-- Last element of the context stack, `emptyContext` when empty. -/
def lastCtx : List Context → Context
  | [] => emptyContext
  | [c] => c
  | _ :: c :: rest => lastCtx (c :: rest)

/-- `Sultan.current_context`: `self._context[-1] if len(self._context) > 0 else {}`. -/
def currentContext (s : SultanState) : Context := lastCtx s.contexts

/-- `Sultan._add`: append a token to the buffer. -/
def add (s : SultanState) (t : Token) : SultanState :=
  { s with commands := s.commands ++ [t] }

/-- `Sultan.clear`: `del self.commands[:]` — the context stack is untouched. -/
def clearOp (s : SultanState) : SultanState :=
  { s with commands := [] }

/-- `Sultan.__exit__`: pop the context stack when nonempty. -/
def exitOp (s : SultanState) : SultanState :=
  { s with contexts := s.contexts.dropLast }

/-- `Sultan.pipe()`: append a `Pipe('|')` token. -/
def pipeOp (s : SultanState) : SultanState := add s Token.pipe

/-- `Sultan.and_()`: append an `And('&&')` token. -/
def andOp_ (s : SultanState) : SultanState := add s Token.andOp

/-- `Sultan.or_()`: append an `Or('||')` token. -/
def orOp_ (s : SultanState) : SultanState := add s Token.orOp

/-- The separator-inserting tail of the `__str__` loop: each later token is
preceded by `" "` when it is special, by `" "` when the previous token is
special, and by `"; "` otherwise.  `prev` is the token at index `i - 1`. -/
def renderRest : Token → List Token → String
  | _, [] => ""
  | prev, t :: ts =>
      (if t.isSpecial then " " else if prev.isSpecial then " " else "; ")
        ++ t.render ++ renderRest t ts

/-- The `__str__` loop over `self.commands`: the first token has no
leading separator. -/
def renderJoined : List Token → String
  | [] => ""
  | t :: ts => t.render ++ renderRest t ts

/-- `output = f"{output.strip()};"` in `__str__`. -/
def renderBody (ts : List Token) : String := pyStrip (renderJoined ts) ++ ";"

/-- The `if cwd := context.get('cwd')` block of `__str__`: a truthy cwd
prepends `cd <cwd> && `. -/
def cwdStage (c : Context) (body : String) : String :=
  match c.cwd with
  | none => body
  | some d => if d = "" then body else "cd " ++ d ++ " && " ++ body

/-- The `if src := context.get('src')` block of `__str__`: a truthy src
prepends `source <src> && ` (after the cwd block, hence outside it). -/
def srcStage (c : Context) (body : String) : String :=
  match c.src with
  | none => body
  | some p => if p = "" then body else "source " ++ p ++ " && " ++ body

/-- The sudo block of `__str__`; `invokingUser` stands for
`getpass.getuser()`. -/
def sudoStage (invokingUser : String) (c : Context) (body : String) : String :=
  if c.sudoFlag then
    if c.user = some invokingUser then
      if invokingUser = "root" then
        "su - " ++ pyStr c.user ++ " -c " ++ sq ++ body ++ sq
      else
        "sudo " ++ body
    else
      "sudo su - " ++ pyStr c.user ++ " -c " ++ sq ++ body ++ sq
  else body

/-- The ssh block of `__str__`: a truthy hostname wraps everything as
`ssh<opts><user>@<hostname> '<body>'`, with `<opts>` the space-padded
ssh-config string when truthy and a single space otherwise. -/
def sshStage (c : Context) (body : String) : String :=
  match c.hostname with
  | none => body
  | some h =>
      if h = "" then body
      else
        (("ssh" ++ (if c.ssh_config ≠ "" then " " ++ c.ssh_config ++ " " else " "))
          ++ pyStr c.user ++ "@" ++ h ++ " " ++ sq ++ body ++ sq)

/-- `Sultan.__str__`: render the buffer with separators, trim, append `;`,
then wrap with cwd, src, sudo and ssh in source order. -/
def str (invokingUser : String) (s : SultanState) : String :=
  let c := currentContext s
  sshStage c (sudoStage invokingUser c (srcStage c (cwdStage c (renderBody s.commands))))

/-- The environment `Sultan.run` hands to `subprocess.Popen`:
`self._context[0].get('env', {}) if len(self._context) > 0 else os.environ`.
`none` means the inherited process environment (`env=None` / `os.environ`). -/
def envUsed (s : SultanState) : Option Env :=
  match s.contexts with
  | [] => none
  | c :: _ => c.env

end Sultan

/-- Outcome of one `subprocess.Popen(...).communicate()` call: either the
shell process completed (with captured stdout and stderr, the target
command's own exit status notwithstanding), or the invocation itself
raised. -/
inductive ExecOutcome where
  | completed (stdout stderr : String)
  | failed
deriving Repr, DecidableEq

/-- `sultan.result.Result` as observed by `run`: optional captured
streams and whether a traceback was attached. -/
structure RunResult where
  stdout : Option String
  stderr : Option String
  traceback : Bool
deriving Repr, DecidableEq

/-- How `Sultan.run` exits: returning a `Result`, or re-raising the
invocation failure (`halt_on_nonzero` true). -/
inductive RunOutcome where
  | returned (r : RunResult)
  | raised
deriving Repr, DecidableEq

namespace Sultan

/-- `Sultan.run`: render the buffer, invoke the shell on the rendered
line with the environment of `envUsed`, and on every path — normal
return, handled failure, or propagated failure — clear the buffer (the
source's `finally` block). -/
def run (shell : String → Option Env → ExecOutcome) (haltOnNonzero : Bool)
    (invokingUser : String) (s : SultanState) : SultanState × RunOutcome :=
  match shell (str invokingUser s) (envUsed s) with
  | .completed out err =>
      (clearOp s, .returned { stdout := some out, stderr := some err, traceback := false })
  | .failed =>
      if haltOnNonzero then (clearOp s, .raised)
      else (clearOp s, .returned { stdout := none, stderr := none, traceback := true })

/-- `Sultan.load`: validates the source file (a truthy `src` that does not
exist raises `IOError`) and builds the context dict.  `pathExists` stands
for `os.path.exists` and `invokingUser` for `getpass.getuser()`.  The
`ssh_config` argument is the already-rendered option string
(`str(ssh_config) if ssh_config else ''`). -/
def load (pathExists : String → Bool) (invokingUser : String)
    (cwd : Option String) (sudoArg : Bool) (user : Option String)
    (hostname : Option String) (env : Option Env) (src : Option String)
    (ssh_config : String) : Except String SultanState :=
  let srcCheck : Except String Unit :=
    match src with
    | none => .ok ()
    | some p =>
        if p = "" then .ok ()  -- falsy src skips the existence check
        else if pathExists p then .ok ()
        else .error ("The Source File provided (" ++ p ++ ") does not exist")
  match srcCheck with
  | .error e => .error e
  | .ok _ =>
      .ok (init (some
        { cwd := cwd
          sudoFlag := sudoArg
          hostname := hostname
          ssh_config := ssh_config
          env := match env with | some [] => none | e => e  -- `env or None`
          src := src
          user := some (match user with
                        | some u => if u = "" then invokingUser else u
                        | none => invokingUser) }))  -- `user if user else getpass.getuser()`

end Sultan

/-- `os.path.join` for the two-argument uses in `Command.__call__`:
an absolute second component discards the first. -/
def ospathJoin (a b : String) : String :=
  if pyStartsWith b ("/") then b
  else if a = "" then b
  else if pyEndsWith a ("/") then a ++ b
  else a ++ "/" ++ b

/-- Lookup of a key in a kwargs dict (association list with the unique
keys of a Python dict). -/
def lookupKw (k : String) : List (String × String) → Option String
  | [] => none
  | p :: rest => if p.1 = k then some p.2 else lookupKw k rest

/-- `kwargs.pop(k)`: the dict without key `k`. -/
def popKw (k : String) : List (String × String) → List (String × String)
  | [] => []
  | p :: rest => if p.1 = k then popKw k rest else p :: popKw k rest

/-- `True` exactly on the `Except.error` constructor (a raised Python
exception). -/
def isErr {α : Type} : Except String α → Bool
  | .error _ => true
  | .ok _ => false

namespace Command

/-- The tail of `Command.__call__` after the `where` handling: a `sudo`
kwarg (of any value) is popped from the kwargs and prefixes the command
name with `sudo `. -/
def finishCall (command : String) (args : List String)
    (kwargs : List (String × String)) : Token :=
  match lookupKw ("sudo") kwargs with
  | some _ => Token.plain ("sudo " ++ command) args (popKw ("sudo") kwargs)
  | none => Token.plain command args kwargs

/-- `Command.__call__`: pops a `where` kwarg and checks that the directory
and the joined executable path exist (raising `IOError` otherwise, before
anything is appended), then handles the `sudo` kwarg and produces the
buffer token. -/
def call (pathExists : String → Bool) (command : String) (args : List String)
    (kwargs : List (String × String)) : Except String Token :=
  match lookupKw ("where") kwargs with
  | some w =>
      if pathExists w then
        let cmd := ospathJoin w command
        if pathExists cmd then
          .ok (finishCall (ospathJoin w cmd) args (popKw ("where") kwargs))
        else
          .error ("Command " ++ sq ++ cmd ++ sq ++ " does not exist in " ++ sq ++ w ++ sq ++ ".")
      else
        .error ("The value for " ++ sq ++ "where" ++ sq ++ " (" ++ w ++ "), for " ++ sq
          ++ command ++ sq ++ " does not exist.")
  | none => .ok (finishCall command args kwargs)

end Command

namespace Redirect

/-- `Redirect.__call__`: choose the descriptor (`&` both, `1` stdout,
`2` stderr; both false raises `ValueError`), double the `>` on append,
and store `<descriptor> <to_file>` as the token text. -/
def call (toFile : String) (append stdout stderr : Bool) : Except String Token :=
  let descriptor? : Except String String :=
    if stdout && stderr then .ok ("&")
    else if stdout then .ok ("1")
    else if stderr then .ok ("2")
    else .error ("You chose redirect to stdout and stderr to be false. This is not valid.")
  match descriptor? with
  | .error e => .error e
  | .ok d => .ok (Token.redir (d ++ ">" ++ (if append then ">" else "") ++ " " ++ toFile))

end Redirect

namespace Sultan

/-- `Sultan.redirect(...)`: on success the rendered redirect token is
appended to the buffer; the `ValueError` propagates before `_add`, so a
failed call leaves the state untouched. -/
def redirectOp (s : SultanState) (toFile : String) (append stdout stderr : Bool) :
    Except String SultanState :=
  match Redirect.call toFile append stdout stderr with
  | .ok t => .ok (add s t)
  | .error e => .error e

end Sultan

/-- States of a `Sultan` instance reachable through its public API:
construction, appending tokens (plain commands, operators, redirects),
`clear`, `__exit__`, and `run`. -/
inductive Reachable : SultanState → Prop where
  | init (c? : Option Context) : Reachable (Sultan.init c?)
  | add {s : SultanState} (t : Token) : Reachable s → Reachable (Sultan.add s t)
  | clear {s : SultanState} : Reachable s → Reachable (Sultan.clearOp s)
  | exit {s : SultanState} : Reachable s → Reachable (Sultan.exitOp s)
  | run {s : SultanState} (shell : String → Option Env → ExecOutcome)
      (haltOnNonzero : Bool) (invokingUser : String) :
      Reachable s → Reachable (Sultan.run shell haltOnNonzero invokingUser s).1

/-- A path-exists oracle under which no path exists. -/
def neverExists : String → Bool := fun _ => false

/-- A path-exists oracle under which exactly the directory `/bin`
exists (so any executable inside it is still missing). -/
def onlyBinExists : String → Bool := fun s => s == "/bin"

/-- A shell oracle that always completes with empty output. -/
def silentShell : String → Option Env → ExecOutcome := fun _ _ => ExecOutcome.completed ("") ("")

/-- A context requests no wrapping when cwd, src and hostname are falsy
and sudo is off. -/
def noWrap (c : Context) : Bool :=
  optEmpty c.cwd && optEmpty c.src && !c.sudoFlag && optEmpty c.hostname

/-! Spec-side restatement of the buffer-rendering algorithm, written from
the specification's words rather than from the source, for the refinement
claim about separator rules. -/

/-- The specification's token classification: pipe, and, or and redirect
are the operator tokens; a plain command is not. -/
def isOperatorToken : Token → Bool
  | .plain _ _ _ => false
  | _ => true

/-- Concatenation of a list of fragments. -/
def concatAll (l : List String) : String := l.foldr (fun a b => a ++ b) ""

/-- The specification's separator table, applied to a (predecessor,
current) pair: a single space before every operator token, a single space
before a plain command immediately following an operator token, and `; `
before a plain command following another plain command. -/
def specSeparator (prevcur : Token × Token) : String :=
  if isOperatorToken prevcur.2 then " "
  else if isOperatorToken prevcur.1 then " " else "; "

/-- Fragment list per the specification: no separator before the first
token; every later token is preceded by the separator determined by it
and its predecessor. -/
def specFragments : List Token → List String
  | [] => []
  | t :: ts =>
      t.render :: (List.zip (t :: ts) ts).map (fun pc => specSeparator pc ++ pc.2.render)

/-- The specification's rendering of the buffer: concatenate the
fragments, trim surrounding whitespace, append a trailing `;`. -/
def specRenderBody (ts : List Token) : String := pyStrip (concatAll (specFragments ts)) ++ ";"

/-! Helper lemmas. -/

theorem isOperatorToken_eq_isSpecial (t : Token) : isOperatorToken t = t.isSpecial := by
  cases t <;> rfl

theorem concatAll_zip_eq_renderRest (ts : List Token) :
    ∀ t : Token,
      concatAll ((List.zip (t :: ts) ts).map (fun pc => specSeparator pc ++ pc.2.render))
        = Sultan.renderRest t ts := by
  induction ts with
  | nil => intro t; rfl
  | cons u us ih =>
      intro t
      have hstep : concatAll ((List.zip (t :: u :: us) (u :: us)).map
            (fun pc => specSeparator pc ++ pc.2.render))
          = (specSeparator (t, u) ++ u.render)
            ++ concatAll ((List.zip (u :: us) us).map
                (fun pc => specSeparator pc ++ pc.2.render)) := by
        simp [concatAll, List.zip_cons_cons]
      rw [hstep, ih u]
      simp [Sultan.renderRest, specSeparator, isOperatorToken_eq_isSpecial,
        String.append_assoc]

theorem run_state (shell : String → Option Env → ExecOutcome) (halt : Bool)
    (iu : String) (s : SultanState) :
    (Sultan.run shell halt iu s).1 = Sultan.clearOp s := by
  cases hsh : shell (Sultan.str iu s) (Sultan.envUsed s) with
  | completed out err => simp [Sultan.run, hsh]
  | failed => cases halt <;> simp [Sultan.run, hsh]

theorem reachable_ctx_len {s : SultanState} (h : Reachable s) : s.contexts.length ≤ 1 := by
  induction h with
  | init c? => cases c? <;> simp [Sultan.init]
  | add t _ ih => simpa [Sultan.add] using ih
  | clear _ ih => simpa [Sultan.clearOp] using ih
  | exit _ ih =>
      simp only [Sultan.exitOp, List.length_dropLast]
      omega
  | run shell halt iu _ ih => rw [run_state]; simpa [Sultan.clearOp] using ih

theorem lookupKw_popKw (k : String) (l : List (String × String)) :
    lookupKw k (popKw k l) = none := by
  induction l with
  | nil => rfl
  | cons p rest ih =>
      by_cases hp : p.1 = k <;> simp [popKw, lookupKw, hp, ih]

theorem cwdStage_noop (c : Context) (b : String) (h : optEmpty c.cwd = true) :
    Sultan.cwdStage c b = b := by
  cases hc : c.cwd with
  | none => simp [Sultan.cwdStage, hc]
  | some d =>
      rw [hc] at h
      simp only [optEmpty, beq_iff_eq] at h
      simp [Sultan.cwdStage, hc, h]

theorem srcStage_noop (c : Context) (b : String) (h : optEmpty c.src = true) :
    Sultan.srcStage c b = b := by
  cases hc : c.src with
  | none => simp [Sultan.srcStage, hc]
  | some p =>
      rw [hc] at h
      simp only [optEmpty, beq_iff_eq] at h
      simp [Sultan.srcStage, hc, h]

theorem sudoStage_noop (iu : String) (c : Context) (b : String) (h : c.sudoFlag = false) :
    Sultan.sudoStage iu c b = b := by
  simp [Sultan.sudoStage, h]

theorem sshStage_noop (c : Context) (b : String) (h : optEmpty c.hostname = true) :
    Sultan.sshStage c b = b := by
  cases hc : c.hostname with
  | none => simp [Sultan.sshStage, hc]
  | some hn =>
      rw [hc] at h
      simp only [optEmpty, beq_iff_eq] at h
      simp [Sultan.sshStage, hc, h]

theorem noWrap_spec {c : Context} (h : noWrap c = true) :
    optEmpty c.cwd = true ∧ optEmpty c.src = true
      ∧ c.sudoFlag = false ∧ optEmpty c.hostname = true := by
  simp only [noWrap, Bool.and_eq_true, Bool.not_eq_true'] at h
  tauto

/-! The claims. -/

/-- C1: for every sequence of tokens in the command buffer, rendering
inserts no separator before the first token, a single space before every
operator token (pipe, and, or, redirect), a single space before a plain
command immediately following an operator token, and `; ` before a plain
command following another plain command; the concatenation is trimmed of
surrounding whitespace and a trailing `;` is appended.  Stated as: the
source's buffer rendering coincides with the rendering built from the
specification's separator table. -/
theorem buffer_render_separator_rules (ts : List Token) :
    specRenderBody ts = Sultan.renderBody ts := by
  cases ts with
  | nil => rfl
  | cons t ts' =>
      simp only [specRenderBody, Sultan.renderBody, specFragments, Sultan.renderJoined,
        concatAll, List.foldr_cons]
      rw [show List.foldr (fun a b => a ++ b) ""
            ((List.zip (t :: ts') ts').map (fun pc => specSeparator pc ++ pc.2.render))
          = Sultan.renderRest t ts' from concatAll_zip_eq_renderRest ts' t]

/-- C2: with both a source file and a working directory set, the source
wrap is outermost and the cd wrap just inside it; with no sudo and no
hostname the final string is exactly `source <src> && cd <dir> && <body>;`
(the cd prefix is prepended first, then the source prefix outside it). -/
theorem source_wrap_outside_cd_wrap (ctx : Context) (cmds : List Token)
    (iu d p body : String)
    (h1 : ctx.cwd = some d) (h2 : d ≠ "") (h3 : ctx.src = some p) (h4 : p ≠ "") :
    Sultan.srcStage ctx (Sultan.cwdStage ctx body)
        = "source " ++ p ++ " && " ++ ("cd " ++ d ++ " && " ++ body)
    ∧ (ctx.sudoFlag = false → ctx.hostname = none →
        Sultan.str iu { commands := cmds, contexts := [ctx] }
          = "source " ++ p ++ " && " ++ ("cd " ++ d ++ " && " ++ Sultan.renderBody cmds)) := by
  constructor
  · simp [Sultan.srcStage, Sultan.cwdStage, h1, h2, h3, h4]
  · intro hs hh
    simp [Sultan.str, Sultan.currentContext, Sultan.lastCtx, Sultan.sshStage, hh,
      Sultan.sudoStage, hs, Sultan.srcStage, Sultan.cwdStage, h1, h2, h3, h4]

/-- C2 witness at a concrete context: cwd `/tmp`, src `/etc/profile`,
empty buffer. -/
theorem source_wrap_outside_cd_wrap_witness :
    Sultan.srcStage { cwd := some ("/tmp"), src := some ("/etc/profile") }
        (Sultan.cwdStage { cwd := some ("/tmp"), src := some ("/etc/profile") } (";"))
      = "source " ++ "/etc/profile" ++ " && " ++ ("cd " ++ "/tmp" ++ " && " ++ ";")
    ∧ Sultan.str ("alice")
        { commands := [],
          contexts := [{ cwd := some ("/tmp"), src := some ("/etc/profile") }] }
      = "source " ++ "/etc/profile" ++ " && " ++ ("cd " ++ "/tmp" ++ " && " ++ Sultan.renderBody []) :=
  ⟨(source_wrap_outside_cd_wrap { cwd := some ("/tmp"), src := some ("/etc/profile") }
      [] ("alice") ("/tmp") ("/etc/profile") (";") rfl (by decide) rfl (by decide)).1,
   (source_wrap_outside_cd_wrap { cwd := some ("/tmp"), src := some ("/etc/profile") }
      [] ("alice") ("/tmp") ("/etc/profile") (";") rfl (by decide) rfl (by decide)).2 rfl rfl⟩

/-- C3: with sudo requested, the rendered body is wrapped as
`sudo su - <user> -c '<body>'` when the context's user differs from the
invoking OS user, as `su - <user> -c '<body>'` when they agree and the
invoking user is root, and as `sudo <body>` otherwise. -/
theorem sudo_wrap_cases (ctx : Context) (iu body : String) (h : ctx.sudoFlag = true) :
    (ctx.user ≠ some iu →
      Sultan.sudoStage iu ctx body
        = "sudo su - " ++ pyStr ctx.user ++ " -c " ++ sq ++ body ++ sq)
    ∧ (ctx.user = some iu → iu = "root" →
      Sultan.sudoStage iu ctx body
        = "su - " ++ pyStr ctx.user ++ " -c " ++ sq ++ body ++ sq)
    ∧ (ctx.user = some iu → iu ≠ "root" →
      Sultan.sudoStage iu ctx body = "sudo " ++ body) := by
  refine ⟨?_, ?_, ?_⟩ <;> intros <;> simp [Sultan.sudoStage, h, *]

/-- C3 witness, the specification's own vector: user `root`, invoking
user `alice`, body `cd /tmp && touch x;` — wrapped as
`sudo su - root -c 'cd /tmp && touch x;'`. -/
theorem sudo_wrap_cases_witness :
    Sultan.sudoStage ("alice") { sudoFlag := true, user := some ("root") }
        ("cd /tmp && touch x;")
      = "sudo su - " ++ pyStr (some ("root")) ++ " -c " ++ sq ++ "cd /tmp && touch x;" ++ sq
    ∧ Sultan.sudoStage ("alice") { sudoFlag := true, user := some ("root") }
        ("cd /tmp && touch x;")
      = "sudo su - root -c " ++ sq ++ "cd /tmp && touch x;" ++ sq :=
  ⟨(sudo_wrap_cases { sudoFlag := true, user := some ("root") } ("alice")
      ("cd /tmp && touch x;") rfl).1 (by decide),
   by decide⟩

/-- C4: with a hostname set, the whole already-wrapped result is wrapped
as `ssh<opts><user>@<hostname> '<body>'`, `<opts>` being the ssh-options
string padded by one space on each side when present and exactly one
space when absent. -/
theorem ssh_wrap_options_padding (ctx : Context) (body hn : String)
    (hh : ctx.hostname = some hn) (hne : hn ≠ "") :
    (ctx.ssh_config = "" →
      Sultan.sshStage ctx body
        = "ssh" ++ " " ++ pyStr ctx.user ++ "@" ++ hn ++ " " ++ sq ++ body ++ sq)
    ∧ (ctx.ssh_config ≠ "" →
      Sultan.sshStage ctx body
        = "ssh" ++ (" " ++ ctx.ssh_config ++ " ")
            ++ pyStr ctx.user ++ "@" ++ hn ++ " " ++ sq ++ body ++ sq) := by
  constructor <;> intro hc <;> simp [Sultan.sshStage, hh, hne, hc]

/-- C4 witness, the specification's own vector: hostname `h.com`, user
`bob`, no ssh options — `ssh bob@h.com 'B'`. -/
theorem ssh_wrap_options_padding_witness :
    Sultan.sshStage { hostname := some ("h.com"), user := some ("bob") } ("B")
      = "ssh" ++ " " ++ pyStr (some ("bob")) ++ "@" ++ "h.com" ++ " " ++ sq ++ "B" ++ sq
    ∧ Sultan.sshStage { hostname := some ("h.com"), user := some ("bob") } ("B")
      = "ssh bob@h.com " ++ sq ++ "B" ++ sq :=
  ⟨(ssh_wrap_options_padding { hostname := some ("h.com"), user := some ("bob") }
      ("B") ("h.com") rfl (by decide)).1 rfl,
   by decide⟩

/-- C5: after every call to `run` — normal return, handled invocation
failure (halt flag false), or propagated failure — the command buffer is
empty. -/
theorem run_clears_buffer (shell : String → Option Env → ExecOutcome)
    (halt : Bool) (iu : String) (s : SultanState) :
    ((Sultan.run shell halt iu s).1).commands = [] := by
  rw [run_state]
  rfl

/-- C6: `run` invokes the shell with the environment of the active
context (the top of the context stack, or the empty context when the
stack is empty), `none` standing for the default inherited process
environment when no override is set there. -/
theorem run_env_is_active_context_env (s : SultanState)
    (shell : String → Option Env → ExecOutcome) (halt : Bool) (iu : String)
    (h : Reachable s) :
    Sultan.envUsed s = (Sultan.currentContext s).env
    ∧ Sultan.run shell halt iu s
        = Sultan.run (fun cmds _ => shell cmds ((Sultan.currentContext s).env)) halt iu s := by
  have hlen := reachable_ctx_len h
  have henv : Sultan.envUsed s = (Sultan.currentContext s).env := by
    obtain ⟨cmds, ctxs⟩ := s
    match ctxs with
    | [] => rfl
    | [c] => rfl
    | a :: b :: rest => simp at hlen
  refine ⟨henv, ?_⟩
  simp only [Sultan.run, henv]

/-- A shell adapter used by the C6 witness: `silentShell` reading the
environment of the active context of a fresh builder. -/
def silentShellAdapted : String → Option Env → ExecOutcome :=
  fun cmds _ => silentShell cmds ((Sultan.currentContext (Sultan.init none)).env)

/-- C6 witness at the reachable state `Sultan.init none`. -/
theorem run_env_is_active_context_env_witness :
    Sultan.envUsed (Sultan.init none) = (Sultan.currentContext (Sultan.init none)).env
    ∧ Sultan.run silentShell true ("alice") (Sultan.init none)
        = Sultan.run silentShellAdapted true ("alice") (Sultan.init none) :=
  run_env_is_active_context_env (Sultan.init none) silentShell true ("alice")
    (Reachable.init none)

/-- C7: `redirect` with stdout and stderr both false raises and appends
nothing; otherwise it renders descriptor `1` (stdout only), `2` (stderr
only) or `&` (both) followed by `>`, doubled to `>>` on append, then a
space and the target path. -/
theorem redirect_descriptor_rules (toFile : String) (a : Bool) (s : SultanState) :
    Redirect.call toFile a true false
        = .ok (Token.redir ("1" ++ ">" ++ (if a then ">" else "") ++ " " ++ toFile))
    ∧ Redirect.call toFile a false true
        = .ok (Token.redir ("2" ++ ">" ++ (if a then ">" else "") ++ " " ++ toFile))
    ∧ Redirect.call toFile a true true
        = .ok (Token.redir ("&" ++ ">" ++ (if a then ">" else "") ++ " " ++ toFile))
    ∧ Redirect.call toFile a false false
        = .error ("You chose redirect to stdout and stderr to be false. This is not valid.")
    ∧ Sultan.redirectOp s toFile a false false
        = .error ("You chose redirect to stdout and stderr to be false. This is not valid.") := by
  refine ⟨rfl, rfl, rfl, rfl, rfl⟩

/-- C10 (implicit): a `sudo` keyword argument of any value is removed
from the rendered option flags and prefixes that single command's name
with `sudo `, independently of any context. -/
theorem sudo_kwarg_prefixes_command (pe : String → Bool) (name : String)
    (args : List String) (kwargs : List (String × String)) (v : String)
    (hw : lookupKw ("where") kwargs = none) (hs : lookupKw ("sudo") kwargs = some v) :
    Command.call pe name args kwargs
        = .ok (Token.plain ("sudo " ++ name) args (popKw ("sudo") kwargs))
    ∧ lookupKw ("sudo") (popKw ("sudo") kwargs) = none := by
  constructor
  · simp [Command.call, hw, Command.finishCall, hs]
  · exact lookupKw_popKw _ _

/-- C10 witness: `ls` called with `sudo=True` becomes the token
`sudo ls` with no remaining kwargs. -/
theorem sudo_kwarg_prefixes_command_witness :
    Command.call neverExists ("ls") [] [(("sudo" : String), ("True" : String))]
        = .ok (Token.plain ("sudo " ++ "ls") []
            (popKw ("sudo") [(("sudo" : String), ("True" : String))]))
    ∧ lookupKw ("sudo") (popKw ("sudo") [(("sudo" : String), ("True" : String))]) = none
    ∧ Command.call neverExists ("ls") [] [(("sudo" : String), ("True" : String))]
        = .ok (Token.plain ("sudo ls") [] []) :=
  ⟨(sudo_kwarg_prefixes_command neverExists ("ls") [] [("sudo", "True")] ("True")
      (by decide) (by decide)).1,
   (sudo_kwarg_prefixes_command neverExists ("ls") [] [("sudo", "True")] ("True")
      (by decide) (by decide)).2,
   by rfl⟩

/-- C8 counterexample: a working directory given at context construction
is never checked against the filesystem — `load` with a `cwd` that does
not exist (under an oracle where no path exists) succeeds instead of
raising. -/
theorem load_skips_cwd_check :
    isErr (Sultan.load neverExists ("alice") (some ("/no/such/dir")) false
      none none none none ("")) = false := by
  rfl

/-- C8 (amended): a source file given at context construction and a
`where`-located executable given on a command are checked at build time
and raise when missing — both when the `where` directory itself does not
exist and when the directory exists but the executable joined into it
does not; the working directory is not validated (`load` without a
source file always succeeds). -/
theorem build_time_path_checks (pe : String → Bool) (iu : String)
    (cwd : Option String) (sd : Bool) (user hostname : Option String)
    (env : Option Env) (ssh : String) (p : String)
    (hp : p ≠ "") (hne : pe p = false)
    (name : String) (args : List String) (kwargs : List (String × String))
    (w : String) (hw : lookupKw ("where") kwargs = some w) (hwne : pe w = false)
    (name2 : String) (args2 : List String) (kwargs2 : List (String × String))
    (w2 : String) (hw2 : lookupKw ("where") kwargs2 = some w2)
    (hw2e : pe w2 = true) (hc2 : pe (ospathJoin w2 name2) = false) :
    isErr (Sultan.load pe iu cwd sd user hostname env (some p) ssh) = true
    ∧ isErr (Command.call pe name args kwargs) = true
    ∧ isErr (Command.call pe name2 args2 kwargs2) = true
    ∧ isErr (Sultan.load pe iu cwd sd user hostname env none ssh) = false := by
  refine ⟨?_, ?_, ?_, ?_⟩
  · simp [Sultan.load, hp, hne, isErr]
  · simp [Command.call, hw, hwne, isErr]
  · simp [Command.call, hw2, hw2e, hc2, isErr]
  · simp [Sultan.load, isErr]

/-- C8 witness: under the oracle where only `/bin` exists, a missing
source file `/f.sh` raises, a missing `where` directory `/b` raises, an
existing `where` directory `/bin` with a missing executable `ls` raises,
and a missing cwd does not. -/
theorem build_time_path_checks_witness :
    isErr (Sultan.load onlyBinExists ("alice") none false none none none
        (some ("/f.sh")) ("")) = true
    ∧ isErr (Command.call onlyBinExists ("cat") [] [(("where" : String), ("/b" : String))]) = true
    ∧ isErr (Command.call onlyBinExists ("ls") [] [(("where" : String), ("/bin" : String))]) = true
    ∧ isErr (Sultan.load onlyBinExists ("alice") none false none none none none ("")) = false :=
  build_time_path_checks onlyBinExists ("alice") none false none none none ("")
    ("/f.sh") (by decide) (by rfl)
    ("cat") [] [("where", "/b")] ("/b") (by decide) (by rfl)
    ("ls") [] [("where", "/bin")] ("/bin") (by decide) (by rfl) (by rfl)

/-- C9 counterexample: with a context whose cwd is `/tmp`, clearing and
re-rendering yields `cd /tmp && ;`, not `;` — `clear` resets only the
buffer, never the context wrapping. -/
theorem clear_render_keeps_context_wrap :
    Sultan.str ("alice") (Sultan.clearOp
        { commands := [Token.plain ("touch") [("x")] []],
          contexts := [{ cwd := some ("/tmp") }] })
      = "cd /tmp && ;"
    ∧ ("cd /tmp && ;" : String) ≠ ";" := by
  refine ⟨by decide, by decide⟩

/-- C9 (amended): rendering is idempotent (it mutates nothing, so two
renders of the same state agree), and clearing then rendering yields
exactly `;` when the active context requests no wrapping (falsy cwd, src
and hostname, sudo off); with wrapping set, the wrap is applied around
`;` instead. -/
theorem render_idempotent_clear_semicolon (iu : String) (s : SultanState)
    (h : noWrap (Sultan.currentContext s) = true) :
    Sultan.str iu s = Sultan.str iu s
    ∧ Sultan.str iu (Sultan.clearOp s) = ";" := by
  refine ⟨rfl, ?_⟩
  obtain ⟨h1, h2, h3, h4⟩ := noWrap_spec h
  have hctx : Sultan.currentContext (Sultan.clearOp s) = Sultan.currentContext s := rfl
  have hcmd : (Sultan.clearOp s).commands = [] := rfl
  simp only [Sultan.str]
  rw [hctx, hcmd, cwdStage_noop _ _ h1, srcStage_noop _ _ h2, sudoStage_noop _ _ _ h3,
    sshStage_noop _ _ h4]
  rfl

/-- C9 witness at the fresh builder `Sultan.init none`. -/
theorem render_idempotent_clear_semicolon_witness :
    noWrap (Sultan.currentContext (Sultan.init none)) = true
    ∧ (Sultan.str ("alice") (Sultan.init none) = Sultan.str ("alice") (Sultan.init none)
       ∧ Sultan.str ("alice") (Sultan.clearOp (Sultan.init none)) = ";") :=
  ⟨by decide, render_idempotent_clear_semicolon ("alice") (Sultan.init none) (by decide)⟩

end SultanModel
